import Mathlib

/-!
Verification of the rk-db ClickHouse entry layer (swordkee/rk-db).

The repository contains two variants of the same ClickHouse entry:
* the later variant (package rkclickhouse, YAML registration keyed by a
  single `domain` string) — modelled in namespace `V2`;
* the earlier variant (clickhouse/boot.go, registration keyed by a
  four-segment `locale`) — modelled in namespace `V1`.

Go maps `map[string]V` are modelled as association lists with
overwrite-on-insert semantics (`GoMap`).  The external collaborators
(`gorm.Open`, `db.Exec`, `db.DB()`, `db.Ping`) are modelled by an explicit
environment (`ConnEnv`) and by result fields on the handle model
(`GormDB`, `SqlConn`).  Connection side effects are recorded in an event
trace (`Ev`), so that statements of the form "opens a connection",
"closes the auxiliary connection" or "never contacts the network" become
statements about the trace.
-/

/-- Association-list model of a Go `map[string]V`: insertion overwrites an
existing key in place, otherwise appends at the end. -/
abbrev GoMap (α : Type) : Type := List (String × α)

namespace GoMap

/-- The empty map, corresponding to `make(map[string]V)`. -/
def empty {α : Type} : GoMap α := []

/-- Go map assignment `m[k] = v`: overwrite the binding of `k` when present,
otherwise add a new binding. -/
def insert {α : Type} : GoMap α → String → α → GoMap α
  | [], k, v => [(k, v)]
  | (k', v') :: rest, k, v =>
      if k' = k then (k, v) :: rest else (k', v') :: insert rest k v

/-- Go map read `m[k]` (with presence bit): `some v` when the key is bound. -/
def find {α : Type} : GoMap α → String → Option α
  | [], _ => none
  | (k', v') :: rest, k => if k' = k then some v' else find rest k

/-- The keys of the map, in representation order. -/
def keys {α : Type} (m : GoMap α) : List String := m.map Prod.fst

/-- The values of the map, in representation order. -/
def values {α : Type} (m : GoMap α) : List α := m.map Prod.snd

theorem find_insert_self {α : Type} (m : GoMap α) (k : String) (v : α) :
    (m.insert k v).find k = some v := by
  induction m with
  | nil => simp [insert, find]
  | cons hd tl ih =>
      obtain ⟨k', v'⟩ := hd
      by_cases h : k' = k
      · simp [insert, find, h]
      · simp [insert, find, h, ih]

theorem find_insert_ne {α : Type} (m : GoMap α) (k k₀ : String) (v : α)
    (h : k ≠ k₀) : (m.insert k v).find k₀ = m.find k₀ := by
  induction m with
  | nil => simp [insert, find, h]
  | cons hd tl ih =>
      obtain ⟨k', v'⟩ := hd
      by_cases hk : k' = k
      · subst hk
        simp [insert, find, h]
      · simp [insert, find, hk, ih]

theorem keys_insert {α : Type} (m : GoMap α) (k : String) (v : α) (n : String) :
    n ∈ (GoMap.insert m k v).keys ↔ n = k ∨ n ∈ keys m := by
  induction m with
  | nil => simp [insert, keys]
  | cons hd tl ih =>
      obtain ⟨k', v'⟩ := hd
      by_cases h : k' = k
      · subst h
        simp [insert, keys]
      · simp only [insert, keys, h, if_false, List.map_cons, List.mem_cons] at ih ⊢
        tauto

theorem keys_insert_nodup {α : Type} (m : GoMap α) (k : String) (v : α)
    (h : (keys m).Nodup) : (GoMap.insert m k v).keys.Nodup := by
  induction m with
  | nil => simp [insert, keys]
  | cons hd tl ih =>
      obtain ⟨k', v'⟩ := hd
      simp only [keys, List.map_cons, List.nodup_cons] at h
      by_cases hk : k' = k
      · subst hk
        simpa [insert, keys] using h
      · have htl := ih h.2
        simp only [insert, hk, if_false, keys, List.map_cons, List.nodup_cons]
        refine ⟨?_, htl⟩
        intro hmem
        exact h.1 (((keys_insert tl k v k').mp hmem).resolve_left hk)

theorem find_mem_keys {α : Type} (m : GoMap α) (k : String) :
    m.find k ≠ none ↔ k ∈ m.keys := by
  induction m with
  | nil => simp [find, keys]
  | cons hd tl ih =>
      obtain ⟨k', v'⟩ := hd
      by_cases h : k' = k
      · simp [find, keys, h]
      · simp [find, keys, h, ih]
        exact fun he => (h he.symm).elim

end GoMap

/-- Model of the native database handle returned by `gormDb.DB()`
(a `*sql.DB`): an identifier plus the outcome of its liveness probe
`Ping()`. -/
structure SqlConn where
  connId : Nat
  pingOk : Bool
deriving DecidableEq, Repr

/-- Decidable equality for `Except`, needed to derive it for handle models. -/
instance exceptDecEq {ε α : Type} [DecidableEq ε] [DecidableEq α] :
    DecidableEq (Except ε α) := fun x y =>
  match x, y with
  | .ok a, .ok b =>
      if h : a = b then isTrue (by rw [h]) else isFalse (by simp [h])
  | .error a, .error b =>
      if h : a = b then isTrue (by rw [h]) else isFalse (by simp [h])
  | .ok _, .error _ => isFalse (by simp)
  | .error _, .ok _ => isFalse (by simp)

/-- Model of a `*gorm.DB` handle.  `dbRes` is the (pre-determined) outcome of
calling `.DB()` on it: the native connection, or an error message. -/
structure GormDB where
  dbRes : Except String SqlConn
deriving DecidableEq, Repr

/-- The part of `gorm.Config` built by this layer that can influence the
driver: the dry-run flag.  The logger inside the config is an external
collaborator and does not influence connection outcomes. -/
structure GormConfig where
  dryRun : Bool
deriving DecidableEq, Repr

/-- Connection environment: outcomes of the external calls `gorm.Open`
(keyed by the DSN string and the gorm config passed) and `db.Exec`
(keyed by the handle and the SQL text). -/
structure ConnEnv where
  openDb : String → Option GormConfig → Except String GormDB
  execDb : GormDB → String → Option String

/-- Connection-level events emitted while `connect` runs: an attempt to open
a handle for a DSN, execution of a SQL statement, and the close of a native
connection (identified by its id). -/
inductive Ev where
  | openConn (dsn : String)
  | execSql (sql : String)
  | closeConn (id : Nat)
deriving DecidableEq, Repr

/-- Events emitted by `closeDB(db)`: `db.DB()` is consulted with its error
ignored, and `Close()` is invoked only when the native handle is non-nil.
Close errors are ignored, so closing emits at most one event and never
fails. -/
def closeEvents (db : GormDB) : List Ev :=
  match db.dbRes with
  | .ok s => [Ev.closeConn s.connId]
  | .error _ => []

namespace V2

/-- Log levels of the gorm logger interface. -/
inductive LogLevel where
  | silent
  | error
  | warn
  | info
deriving DecidableEq, Repr

/-- Model of the `Logger` adapter of the later variant: level, slow-query
threshold in milliseconds, and the record-not-found suppression flag.  The
zap delegate is an external collaborator and is not modelled. -/
structure Logger where
  logLevel : LogLevel
  slowThresholdMs : Int
  ignoreRecordNotFoundError : Bool
deriving DecidableEq, Repr

/-- Model of `databaseInner` of the later variant.  Plugins are opaque
values produced by external constructors; they are modelled by ids. -/
structure DatabaseInner where
  name : String
  dryRun : Bool
  autoCreate : Bool
  params : List String
  plugins : List Nat
deriving DecidableEq, Repr

/-- Model of `ClickHouseEntry` of the later variant (field names follow the
Go struct; `User` and `Addr` are exported there, the rest unexported). -/
structure ClickHouseEntry where
  entryName : String
  entryType : String
  entryDescription : String
  User : String
  pass : String
  logger : Option Logger
  Addr : String
  innerDbList : List DatabaseInner
  GormDbMap : GoMap GormDB
  GormConfigMap : GoMap GormConfig
deriving DecidableEq, Repr

/-- Model of `WithName`: assigns unconditionally (no emptiness guard in the
source). -/
def WithName (name : String) : ClickHouseEntry → ClickHouseEntry :=
  fun entry => { entry with entryName := name }

/-- Model of `WithDescription`: assigns unconditionally (no guard in the
source). -/
def WithDescription (description : String) : ClickHouseEntry → ClickHouseEntry :=
  fun entry => { entry with entryDescription := description }

/-- Model of `WithUser`: assigns only when the value is non-empty. -/
def WithUser (user : String) : ClickHouseEntry → ClickHouseEntry :=
  fun m => if user.length > 0 then { m with User := user } else m

/-- Model of `WithPass`: assigns only when the value is non-empty. -/
def WithPass (pass : String) : ClickHouseEntry → ClickHouseEntry :=
  fun m => if pass.length > 0 then { m with pass := pass } else m

/-- Model of `WithAddr`: assigns only when the value is non-empty. -/
def WithAddr (addr : String) : ClickHouseEntry → ClickHouseEntry :=
  fun m => if addr.length > 0 then { m with Addr := addr } else m

/-- Model of `WithDatabase`: no-op on an empty name, otherwise appends a new
descriptor (duplicates are not merged). -/
def WithDatabase (name : String) (dryRun autoCreate : Bool)
    (params : List String) : ClickHouseEntry → ClickHouseEntry :=
  fun m =>
    if name.length < 1 then m
    else
      { m with innerDbList := m.innerDbList ++
          [{ name := name, dryRun := dryRun, autoCreate := autoCreate,
             params := params, plugins := [] }] }

/-- Model of `WithPlugin`: no-op on an empty name or nil plugin, otherwise
appends the plugin to every descriptor with a matching name. -/
def WithPlugin (name : String) (plugin : Option Nat) :
    ClickHouseEntry → ClickHouseEntry :=
  fun entry =>
    match plugin with
    | none => entry
    | some p =>
        if name = "" then entry
        else
          { entry with innerDbList :=
              entry.innerDbList.map (fun inner =>
                if inner.name = name then
                  { inner with plugins := inner.plugins ++ [p] }
                else inner) }

/-- Model of `WithLogger`: assigns only when the logger is non-nil. -/
def WithLogger (logger : Option Logger) : ClickHouseEntry → ClickHouseEntry :=
  fun m =>
    match logger with
    | some l => { m with logger := some l }
    | none => m

/-- The entry type constant `ClickHouseEntryType`. -/
def ClickHouseEntryType : String := "ClickHouseEntry"

/-- The default logger built inside `RegisterClickHouseEntry`. -/
def defaultLoggerV2 : Logger :=
  { logLevel := .warn, slowThresholdMs := 5000, ignoreRecordNotFoundError := false }

/-- The default-valued entry built at the start of `RegisterClickHouseEntry`,
before the option mutators run. -/
def defaultEntryV2 : ClickHouseEntry :=
  { entryName := "ClickHouse"
    entryType := ClickHouseEntryType
    entryDescription := "ClickHouse entry for gorm.DB"
    User := "default"
    pass := ""
    logger := some defaultLoggerV2
    Addr := "localhost:9000"
    innerDbList := []
    GormDbMap := GoMap.empty
    GormConfigMap := GoMap.empty }

/-- Model of `RegisterClickHouseEntry` without the external registry call:
build the default entry, apply the option mutators in order, default the
description when empty, then create one default gorm config per descriptor
keyed by descriptor name.  The call `rkentry.GlobalAppCtx.AddEntry` is a
registry effect modelled at the YAML-registration level. -/
def RegisterClickHouseEntry (opts : List (ClickHouseEntry → ClickHouseEntry)) :
    ClickHouseEntry :=
  let entry := opts.foldl (fun e o => o e) defaultEntryV2
  let entry :=
    if entry.entryDescription.length < 1 then
      { entry with entryDescription :=
          entry.entryType ++ " entry with name of " ++ entry.entryName ++
            ", addr:" ++ entry.Addr ++ ", user:" ++ entry.User }
    else entry
  { entry with GormConfigMap :=
      entry.innerDbList.foldl (fun m innerDb =>
        GoMap.insert m innerDb.name { dryRun := innerDb.dryRun }) entry.GormConfigMap }

end V2

namespace V2

/-- The join `strings.Join(parts, "&")`. -/
def joinAmp : List String → String
  | [] => ""
  | [p] => p
  | p :: rest => p ++ "&" ++ joinAmp rest

/-- The DSN used for the auxiliary auto-create connection: server address
with credentials only, no database name selected. -/
def auxDsn (entry : ClickHouseEntry) : String :=
  "tcp://" ++ entry.Addr ++ "?" ++ joinAmp [entry.User, entry.pass]

/-- The SQL statement issued during auto-create. -/
def createSql (innerDb : DatabaseInner) : String :=
  "CREATE DATABASE IF NOT EXISTS " ++ innerDb.name

/-- The DSN used for the real connection: database name, credentials and the
extra per-database params. -/
def realDsn (entry : ClickHouseEntry) (innerDb : DatabaseInner) : String :=
  "tcp://" ++ entry.Addr ++ "?" ++
    joinAmp ([innerDb.name, entry.User, entry.pass] ++ innerDb.params)

/-- State threaded through `connect`: the handle map being populated
(`entry.GormDbMap` is mutated in place in Go) and the trace of connection
events emitted so far. -/
structure ConnState where
  GormDbMap : GoMap GormDB
  trace : List Ev
deriving DecidableEq, Repr

/-- One iteration of the `connect` loop of the later variant for a single
descriptor.  Mirrors the source: when not dry-run and auto-create is set,
open the auxiliary connection (no database selected), issue the create
statement, and close the auxiliary handle via `closeDB` both on the
exec-error path and on success; then open the real connection and store the
handle under the descriptor name.  On the auxiliary open-error path the
source calls `closeDB(nil)`, which emits nothing. -/
def connectStep (env : ConnEnv) (entry : ClickHouseEntry) (st : ConnState)
    (innerDb : DatabaseInner) : ConnState × Option String :=
  let cfg := GoMap.find entry.GormConfigMap innerDb.name
  let step2 : ConnState → ConnState × Option String := fun st =>
    let st := { st with trace := st.trace ++ [Ev.openConn (realDsn entry innerDb)] }
    match env.openDb (realDsn entry innerDb) cfg with
    | .error err => (st, some err)
    | .ok db =>
        ({ st with GormDbMap := GoMap.insert st.GormDbMap innerDb.name db }, none)
  if !innerDb.dryRun && innerDb.autoCreate then
    let st1 := { st with trace := st.trace ++ [Ev.openConn (auxDsn entry)] }
    match env.openDb (auxDsn entry) cfg with
    | .error err => (st1, some err)
    | .ok db =>
        let st2 := { st1 with trace := st1.trace ++ [Ev.execSql (createSql innerDb)] }
        match env.execDb db (createSql innerDb) with
        | some err => ({ st2 with trace := st2.trace ++ closeEvents db }, some err)
        | none => step2 { st2 with trace := st2.trace ++ closeEvents db }
  else step2 st

/-- The `connect` loop over the remaining descriptors: stop at the first
error, otherwise continue with the updated state. -/
def connectLoop (env : ConnEnv) (entry : ClickHouseEntry) :
    ConnState → List DatabaseInner → ConnState × Option String
  | st, [] => (st, none)
  | st, innerDb :: rest =>
      match connectStep env entry st innerDb with
      | (st', some err) => (st', some err)
      | (st', none) => connectLoop env entry st' rest

/-- Model of `(*ClickHouseEntry).connect` of the later variant: iterate the
descriptor list in order starting from the current handle map. -/
def connect (env : ConnEnv) (entry : ClickHouseEntry) : ConnState × Option String :=
  connectLoop env entry { GormDbMap := entry.GormDbMap, trace := [] } entry.innerDbList

/-- Outcome of `Bootstrap`: normal return, or a call to
`rkentry.ShutdownWithError` with the reported message. -/
inductive BootOutcome where
  | ok
  | shutdown (msg : String)
deriving DecidableEq, Repr

/-- The error message passed to `ShutdownWithError` on connection failure:
the password position in the `user:pass@addr` shape is replaced by the
literal `****`. -/
def shutdownMsg (entry : ClickHouseEntry) : String :=
  "failed to connect to database at " ++ entry.User ++ ":" ++ "****" ++ "@" ++ entry.Addr

/-- Model of `Bootstrap` of the later variant: run `connect`; on error,
trigger process-level shutdown with the redacted message.  Returns the entry
as mutated by `connect` (the handle map), the event trace, and the
outcome.  Logging calls are external side effects and are not modelled. -/
def Bootstrap (env : ConnEnv) (entry : ClickHouseEntry) :
    ClickHouseEntry × List Ev × BootOutcome :=
  match connect env entry with
  | (st, none) => ({ entry with GormDbMap := st.GormDbMap }, st.trace, .ok)
  | (st, some _) =>
      ({ entry with GormDbMap := st.GormDbMap }, st.trace, .shutdown (shutdownMsg entry))

/-- State of the native connections underneath the gorm handles: which
native connection ids are currently open.  `sql.DB.Close` errors are ignored
by `closeDB`, so closing never fails and closing an already closed
connection is a no-op. -/
structure ConnWorld where
  isOpen : Nat → Bool

/-- Effect of `closeDB(db)` on the world: when `db.DB()` yields a native
handle, mark it closed; the close error is discarded.  When `db.DB()` fails
the native handle is nil and nothing happens. -/
def closeDB (w : ConnWorld) (db : GormDB) : ConnWorld :=
  match db.dbRes with
  | .error _ => w
  | .ok s => { isOpen := fun n => if n = s.connId then false else w.isOpen n }

/-- Model of `Interrupt` of the later variant: `closeDB` every handle in the
entry handle map; the logging afterwards is external.  `Interrupt` has no
error or panic path: it is a total function on worlds. -/
def Interrupt (entry : ClickHouseEntry) (w : ConnWorld) : ConnWorld :=
  (GoMap.values entry.GormDbMap).foldl closeDB w

/-- Health of one gorm handle as checked by `IsHealthy`: `db.DB()` must
succeed and the native connection must answer `Ping()`. -/
def handleHealthy (db : GormDB) : Bool :=
  match db.dbRes with
  | .error _ => false
  | .ok s => s.pingOk

/-- Model of `IsHealthy`: every handle in the map must be healthy; the first
failing handle makes the whole entry unhealthy. -/
def IsHealthy (entry : ClickHouseEntry) : Bool :=
  (GoMap.values entry.GormDbMap).all handleHealthy

/-- Model of `String()` of the later variant.  Every field of the Go struct
is either unexported or tagged `json:"-"`, so `json.Marshal` produces the
empty object for every entry. -/
def entryString (_entry : ClickHouseEntry) : String := "\x7b\x7d"

end V2

namespace V2

/-- Model of one per-database block of the YAML boot config, including the
enabled flags of the two plugin sub-configs (the remaining plugin fields are
filled from the enclosing block and are external). -/
structure DatabaseBlock where
  name : String
  params : List String
  dryRun : Bool
  autoCreate : Bool
  promEnabled : Bool
  traceEnabled : Bool
deriving DecidableEq, Repr

/-- Model of the logger block of the YAML boot config. -/
structure LoggerBlock where
  entryRef : String
  level : String
  encoding : String
  outputPaths : List String
  slowThresholdMs : Int
  ignoreRecordNotFoundError : Bool
deriving DecidableEq, Repr

/-- Model of `BootConfigE`, one ClickHouse block of the YAML boot config. -/
structure BootConfigE where
  Enabled : Bool
  Name : String
  Description : String
  Domain : String
  User : String
  Pass : String
  Addr : String
  Database : List DatabaseBlock
  Logger : LoggerBlock
deriving DecidableEq, Repr

/-- Model of the domain filtering loop of `RegisterClickHouseEntryYAML`
(the `configMap` construction): skip disabled or unnamed blocks and blocks
whose domain does not match the environment (`rkentry.IsValidDomain` is an
external predicate, taken as a parameter); keep the first block per name,
except that a block with a specific domain (neither empty nor `*`)
overwrites the currently selected block of the same name. -/
def configMapStep (isValidDomain : String → Bool)
    (configMap : GoMap BootConfigE) (e : BootConfigE) : GoMap BootConfigE :=
  if !e.Enabled || e.Name.length < 1 then configMap
  else if !(isValidDomain e.Domain) then configMap
  else
    match GoMap.find configMap e.Name with
    | none => GoMap.insert configMap e.Name e
    | some _ =>
        if e.Domain = "" || e.Domain = "*" then configMap
        else GoMap.insert configMap e.Name e

/-- The whole filtering loop is a fold of `configMapStep` over the blocks,
starting from the empty map. -/
def buildConfigMap (isValidDomain : String → Bool)
    (blocks : List BootConfigE) : GoMap BootConfigE :=
  blocks.foldl (configMapStep isValidDomain) GoMap.empty

/-- Model of the logger construction in `RegisterClickHouseEntryYAML`:
level defaults to warn and is overridden by the four recognized strings;
the slow threshold defaults to 5000 ms and is overridden when positive.
The zap delegate wiring (encoding and output-path overrides) is external
I/O and is not modelled. -/
def buildLogger (element : BootConfigE) : Logger :=
  let logLevel : LogLevel :=
    match element.Logger.level with
    | "info" => .info
    | "warn" => .warn
    | "error" => .error
    | "silent" => .silent
    | _ => .warn
  let slow : Int :=
    if element.Logger.slowThresholdMs > 0 then element.Logger.slowThresholdMs
    else 5000
  { logLevel := logLevel, slowThresholdMs := slow,
    ignoreRecordNotFoundError := element.Logger.ignoreRecordNotFoundError }

/-- Abstract id of the plugin built by `plugins.NewTrace` (external
constructor). -/
def tracePluginId : Nat := 0

/-- Abstract id of the plugin built by `plugins.NewProm` (external
constructor). -/
def promPluginId : Nat := 1

/-- The option list built for one selected block: the six field mutators
followed by, per database block, the database mutator and the plugin
mutators for the enabled plugin configs. -/
def optsOfElement (element : BootConfigE) :
    List (ClickHouseEntry → ClickHouseEntry) :=
  [WithName element.Name,
   WithDescription element.Description,
   WithUser element.User,
   WithPass element.Pass,
   WithAddr element.Addr,
   WithLogger (some (buildLogger element))] ++
  element.Database.foldl
    (fun acc db =>
      acc ++ [WithDatabase db.name db.dryRun db.autoCreate db.params] ++
        (if db.traceEnabled then [WithPlugin db.name (some tracePluginId)] else []) ++
        (if db.promEnabled then [WithPlugin db.name (some promPluginId)] else []))
    []

/-- Model of `RegisterClickHouseEntryYAML`: build the domain-filtered
config map, then register one entry per selected block.  Returns the `res`
map (keyed by block name) and the sequence of entries added to the global
registry by `RegisterClickHouseEntry`. -/
def RegisterClickHouseEntryYAML (isValidDomain : String → Bool)
    (blocks : List BootConfigE) :
    GoMap ClickHouseEntry × List ClickHouseEntry :=
  (buildConfigMap isValidDomain blocks).foldl
    (fun acc elem =>
      let entry := RegisterClickHouseEntry (optsOfElement elem.2)
      (GoMap.insert acc.1 elem.2.Name entry, acc.2 ++ [entry]))
    (GoMap.empty, [])

end V2

namespace V1

/-- Model of `databaseInner` of the earlier variant (no plugins). -/
structure DatabaseInner where
  name : String
  dryRun : Bool
  autoCreate : Bool
  params : List String
deriving DecidableEq, Repr

/-- Model of `ClickHouseEntry` of the earlier variant.  The zap logger
entry is a pointer to an external `rkentry.ZapLoggerEntry`; only its
identity matters to this layer, so it is modelled as an optional abstract
id (`none` is the nil pointer).  In this struct `EntryName`, `EntryType`,
`User` and `Addr` are exported without a `json:"-"` tag, so they are
serialized; `EntryDescription` and `zapLoggerEntry` are tagged `json:"-"`
and `pass` is unexported. -/
structure ClickHouseEntry where
  EntryName : String
  EntryType : String
  EntryDescription : String
  User : String
  pass : String
  zapLoggerEntry : Option Nat
  Addr : String
  innerDbList : List DatabaseInner
  GormDbMap : GoMap GormDB
  GormConfigMap : GoMap GormConfig
deriving DecidableEq, Repr

/-- Model of `WithName` of the earlier variant: assigns unconditionally. -/
def WithName (name : String) : ClickHouseEntry → ClickHouseEntry :=
  fun entry => { entry with EntryName := name }

/-- Model of `WithDescription` of the earlier variant: assigns
unconditionally. -/
def WithDescription (description : String) : ClickHouseEntry → ClickHouseEntry :=
  fun entry => { entry with EntryDescription := description }

/-- Model of `WithUser` of the earlier variant. -/
def WithUser (user : String) : ClickHouseEntry → ClickHouseEntry :=
  fun m => if user.length > 0 then { m with User := user } else m

/-- Model of `WithPass` of the earlier variant. -/
def WithPass (pass : String) : ClickHouseEntry → ClickHouseEntry :=
  fun m => if pass.length > 0 then { m with pass := pass } else m

/-- Model of `WithAddr` of the earlier variant. -/
def WithAddr (addr : String) : ClickHouseEntry → ClickHouseEntry :=
  fun m => if addr.length > 0 then { m with Addr := addr } else m

/-- Model of `WithDatabase` of the earlier variant. -/
def WithDatabase (name : String) (dryRun autoCreate : Bool)
    (params : List String) : ClickHouseEntry → ClickHouseEntry :=
  fun m =>
    if name.length < 1 then m
    else
      { m with innerDbList := m.innerDbList ++
          [{ name := name, dryRun := dryRun, autoCreate := autoCreate,
             params := params }] }

/-- Model of `WithZapLoggerEntry` of the earlier variant: assigns only when
the provided logger entry is non-nil. -/
def WithZapLoggerEntry (entry : Option Nat) : ClickHouseEntry → ClickHouseEntry :=
  fun m =>
    match entry with
    | some l => { m with zapLoggerEntry := some l }
    | none => m

/-- The default-valued entry of the earlier variant
(`RegisterClickHouseEntry` before the mutators run); the default zap
logger entry comes from `GetZapLoggerEntryDefault`, an external non-nil
value modelled as id 0. -/
def defaultEntryV1 : ClickHouseEntry :=
  { EntryName := "ClickHouse"
    EntryType := "ClickHouse"
    EntryDescription := "ClickHouse entry for gorm.DB"
    User := "default"
    pass := ""
    zapLoggerEntry := some 0
    Addr := "localhost:9000"
    innerDbList := []
    GormDbMap := GoMap.empty
    GormConfigMap := GoMap.empty }

/-- DSN of the auxiliary auto-create connection of the earlier variant. -/
def auxDsn (entry : ClickHouseEntry) : String :=
  "tcp://" ++ entry.Addr ++ "?" ++ V2.joinAmp [entry.User, entry.pass]

/-- DSN of the real connection of the earlier variant. -/
def realDsn (entry : ClickHouseEntry) (innerDb : DatabaseInner) : String :=
  "tcp://" ++ entry.Addr ++ "?" ++
    V2.joinAmp ([innerDb.name, entry.User, entry.pass] ++ innerDb.params)

/-- The SQL statement issued during auto-create (earlier variant). -/
def createSql (innerDb : DatabaseInner) : String :=
  "CREATE DATABASE IF NOT EXISTS " ++ innerDb.name

/-- One iteration of the `connect` loop of the earlier variant.  Unlike the
later variant, no `closeDB` call exists anywhere in this file: the auxiliary
auto-create handle is neither closed on the error paths nor after a
successful create statement. -/
def connectStep (env : ConnEnv) (entry : ClickHouseEntry) (st : V2.ConnState)
    (innerDb : DatabaseInner) : V2.ConnState × Option String :=
  let cfg := GoMap.find entry.GormConfigMap innerDb.name
  let step2 : V2.ConnState → V2.ConnState × Option String := fun st =>
    let st := { st with trace := st.trace ++ [Ev.openConn (realDsn entry innerDb)] }
    match env.openDb (realDsn entry innerDb) cfg with
    | .error err => (st, some err)
    | .ok db =>
        ({ st with GormDbMap := GoMap.insert st.GormDbMap innerDb.name db }, none)
  if !innerDb.dryRun && innerDb.autoCreate then
    let st1 := { st with trace := st.trace ++ [Ev.openConn (auxDsn entry)] }
    match env.openDb (auxDsn entry) cfg with
    | .error err => (st1, some err)
    | .ok db =>
        let st2 := { st1 with trace := st1.trace ++ [Ev.execSql (createSql innerDb)] }
        match env.execDb db (createSql innerDb) with
        | some err => (st2, some err)
        | none => step2 st2
  else step2 st

/-- The `connect` loop of the earlier variant. -/
def connectLoop (env : ConnEnv) (entry : ClickHouseEntry) :
    V2.ConnState → List DatabaseInner → V2.ConnState × Option String
  | st, [] => (st, none)
  | st, innerDb :: rest =>
      match connectStep env entry st innerDb with
      | (st', some err) => (st', some err)
      | (st', none) => connectLoop env entry st' rest

/-- Model of `(*ClickHouseEntry).connect` of the earlier variant. -/
def connect (env : ConnEnv) (entry : ClickHouseEntry) : V2.ConnState × Option String :=
  connectLoop env entry { GormDbMap := entry.GormDbMap, trace := [] } entry.innerDbList

/-- Model of `Interrupt` of the earlier variant: the body only extracts the
event id and logs; no handle in the map is closed, so the world of native
connections is untouched. -/
def Interrupt (_entry : ClickHouseEntry) (w : V2.ConnWorld) : V2.ConnWorld := w

/-- Model of `IsHealthy` of the earlier variant (same body as the later
one). -/
def IsHealthy (entry : ClickHouseEntry) : Bool :=
  (GoMap.values entry.GormDbMap).all V2.handleHealthy

/-- Minimal model of the string quoting done by `json.Marshal` on field
values (escaping of the backslash and the double quote). -/
def jsonQuote (s : String) : String :=
  "\"" ++ String.mk (s.data.foldr
    (fun c acc =>
      if c = '"' ∨ c = '\\' then '\\' :: c :: acc else c :: acc) []) ++ "\""

/-- Model of `String()` of the earlier variant: `json.Marshal` serializes
the exported untagged fields `EntryName`, `EntryType`, `User` (tag `user`)
and `Addr` (tag `addr`) in declaration order; `EntryDescription`, the maps
and the descriptor list are tagged `json:"-"`, and `pass` is unexported, so
none of them appears. -/
def entryString (entry : ClickHouseEntry) : String :=
  "\x7b" ++
    "\"EntryName\":" ++ jsonQuote entry.EntryName ++ "," ++
    "\"EntryType\":" ++ jsonQuote entry.EntryType ++ "," ++
    "\"user\":" ++ jsonQuote entry.User ++ "," ++
    "\"addr\":" ++ jsonQuote entry.Addr ++
  "\x7d"

end V1

namespace V2

theorem connectLoop_append (env : ConnEnv) (entry : ClickHouseEntry)
    (st : ConnState) (l1 l2 : List DatabaseInner) :
    connectLoop env entry st (l1 ++ l2) =
      match connectLoop env entry st l1 with
      | (st', none) => connectLoop env entry st' l2
      | (st', some err) => (st', some err) := by
  induction l1 generalizing st with
  | nil => simp [connectLoop]
  | cons d rest ih =>
      simp only [List.cons_append, connectLoop]
      cases hstep : connectStep env entry st d with
      | mk st' r =>
          cases r with
          | none => simpa using ih st'
          | some err => simp

theorem connectStep_err_map (env : ConnEnv) (entry : ClickHouseEntry)
    (st : ConnState) (d : DatabaseInner) (st' : ConnState) (err : String)
    (h : connectStep env entry st d = (st', some err)) :
    st'.GormDbMap = st.GormDbMap := by
  simp only [connectStep] at h
  split at h
  · split at h
    · simp only [Prod.mk.injEq] at h
      obtain ⟨h1, _⟩ := h
      subst h1
      rfl
    · split at h
      · simp only [Prod.mk.injEq] at h
        obtain ⟨h1, _⟩ := h
        subst h1
        rfl
      · split at h
        · simp only [Prod.mk.injEq] at h
          obtain ⟨h1, _⟩ := h
          subst h1
          rfl
        · simp only [Prod.mk.injEq] at h
          exact absurd h.2 (by simp)
  · split at h
    · simp only [Prod.mk.injEq] at h
      obtain ⟨h1, _⟩ := h
      subst h1
      rfl
    · simp only [Prod.mk.injEq] at h
      exact absurd h.2 (by simp)

theorem connectStep_innerDbList_irrel (env : ConnEnv) (entry : ClickHouseEntry)
    (l : List DatabaseInner) (st : ConnState) (d : DatabaseInner) :
    connectStep env { entry with innerDbList := l } st d = connectStep env entry st d := rfl

theorem connectLoop_innerDbList_irrel (env : ConnEnv) (entry : ClickHouseEntry)
    (l : List DatabaseInner) (st : ConnState) (ds : List DatabaseInner) :
    connectLoop env { entry with innerDbList := l } st ds = connectLoop env entry st ds := by
  induction ds generalizing st with
  | nil => rfl
  | cons d rest ih =>
      simp only [connectLoop, connectStep_innerDbList_irrel]
      cases connectStep env entry st d with
      | mk st' r =>
          cases r with
          | none => exact ih st'
          | some err => rfl

end V2

/-- C1: in the later variant, if the `connect` step of some descriptor fails
during `Bootstrap` (in particular when opening its connection fails, after
the earlier descriptors succeeded), then Bootstrap stops there: its trace
and outcome are independent of the descriptors after the failing one, the
handle map is left exactly as the earlier descriptors built it (no rollback,
nothing stored by the failing step), and the entry triggers process-level
shutdown with a message whose password portion is the literal `****` and
which does not depend on the stored password. -/
theorem bootstrap_connect_failure_aborts_preserves_and_redacts
    (env : ConnEnv) (e : V2.ClickHouseEntry) (pre post : List V2.DatabaseInner)
    (d : V2.DatabaseInner) (st1 st2 : V2.ConnState) (err : String)
    (hdbs : e.innerDbList = pre ++ d :: post)
    (hpre : V2.connectLoop env e { GormDbMap := e.GormDbMap, trace := [] } pre = (st1, none))
    (hfail : V2.connectStep env e st1 d = (st2, some err)) :
    V2.Bootstrap env e =
      ({ e with GormDbMap := st2.GormDbMap }, st2.trace,
        .shutdown ("failed to connect to database at " ++ e.User ++ ":" ++ "****" ++ "@" ++ e.Addr)) ∧
    st2.GormDbMap = st1.GormDbMap ∧
    (∀ post2 : List V2.DatabaseInner,
      (V2.Bootstrap env { e with innerDbList := pre ++ d :: post2 }).2 =
        (V2.Bootstrap env e).2) ∧
    (∀ p : String, V2.shutdownMsg { e with pass := p } = V2.shutdownMsg e) := by
  have hloop : ∀ l2 : List V2.DatabaseInner,
      V2.connectLoop env e { GormDbMap := e.GormDbMap, trace := [] } (pre ++ d :: l2) =
        (st2, some err) := by
    intro l2
    rw [V2.connectLoop_append, hpre]
    show V2.connectLoop env e st1 (d :: l2) = (st2, some err)
    simp only [V2.connectLoop]
    rw [hfail]
  have hce : V2.connect env e = (st2, some err) := by
    unfold V2.connect
    rw [hdbs]
    exact hloop post
  have hbe : V2.Bootstrap env e =
      ({ e with GormDbMap := st2.GormDbMap }, st2.trace,
        .shutdown (V2.shutdownMsg e)) := by
    unfold V2.Bootstrap
    rw [hce]
  refine ⟨hbe, V2.connectStep_err_map env e st1 d st2 err hfail, ?_, fun p => rfl⟩
  intro post2
  have hce2 : V2.connect env { e with innerDbList := pre ++ d :: post2 } = (st2, some err) := by
    unfold V2.connect
    show V2.connectLoop env { e with innerDbList := pre ++ d :: post2 }
      { GormDbMap := e.GormDbMap, trace := [] } (pre ++ d :: post2) = (st2, some err)
    rw [V2.connectLoop_innerDbList_irrel]
    exact hloop post2
  have hbe2 : V2.Bootstrap env { e with innerDbList := pre ++ d :: post2 } =
      ({ { e with innerDbList := pre ++ d :: post2 } with GormDbMap := st2.GormDbMap },
        st2.trace, .shutdown (V2.shutdownMsg { e with innerDbList := pre ++ d :: post2 })) := by
    unfold V2.Bootstrap
    rw [hce2]
  rw [hbe2, hbe]
  rfl

/-- Descriptor used by concrete witnesses: dry-run, no auto-create. -/
def d1w : V2.DatabaseInner :=
  { name := "x", dryRun := true, autoCreate := false, params := [], plugins := [] }

/-- Second witness descriptor. -/
def d2w : V2.DatabaseInner :=
  { name := "y", dryRun := true, autoCreate := false, params := [], plugins := [] }

/-- A healthy handle used by concrete witnesses. -/
def dbOkw : GormDB := { dbRes := .ok { connId := 7, pingOk := true } }

/-- Witness environment: only the DSN of the first descriptor connects. -/
def envW : ConnEnv :=
  { openDb := fun dsn _ => if dsn = "tcp://a?x&u&p" then .ok dbOkw else .error "dial"
    execDb := fun _ _ => none }

/-- Witness entry with two descriptors. -/
def entW : V2.ClickHouseEntry :=
  { V2.defaultEntryV2 with User := "u", pass := "p", Addr := "a", innerDbList := [d1w, d2w] }

/-- State after the first witness descriptor connects. -/
def st1w : V2.ConnState :=
  { GormDbMap := [("x", dbOkw)], trace := [Ev.openConn "tcp://a?x&u&p"] }

/-- State after the second witness descriptor fails to connect. -/
def st2w : V2.ConnState :=
  { GormDbMap := [("x", dbOkw)],
    trace := [Ev.openConn "tcp://a?x&u&p", Ev.openConn "tcp://a?y&u&p"] }

/-- Concrete instantiation of the C1 theorem: the second descriptor fails to
open, Bootstrap keeps the handle of the first descriptor and shuts down with
the redacted message. -/
theorem bootstrap_connect_failure_witness :
    V2.Bootstrap envW entW =
      ({ entW with GormDbMap := st2w.GormDbMap }, st2w.trace,
        .shutdown ("failed to connect to database at " ++ entW.User ++ ":" ++ "****" ++ "@" ++ entW.Addr)) ∧
    st2w.GormDbMap = st1w.GormDbMap :=
  ⟨(bootstrap_connect_failure_aborts_preserves_and_redacts envW entW [d1w] [] d2w
      st1w st2w "dial" (by decide) (by decide) (by decide)).1,
   (bootstrap_connect_failure_aborts_preserves_and_redacts envW entW [d1w] [] d2w
      st1w st2w "dial" (by decide) (by decide) (by decide)).2.1⟩

/-- Recognizer for close events in a trace. -/
def isCloseEv : Ev → Bool
  | .closeConn _ => true
  | _ => false

theorem connectStepV1_no_close (env : ConnEnv) (e : V1.ClickHouseEntry)
    (st : V2.ConnState) (d : V1.DatabaseInner) :
    ((V1.connectStep env e st d).1).trace.filter isCloseEv = st.trace.filter isCloseEv := by
  simp only [V1.connectStep]
  split
  · split
    · simp [List.filter_append, isCloseEv]
    · split
      · simp [List.filter_append, isCloseEv]
      · split
        · simp [List.filter_append, isCloseEv]
        · simp [List.filter_append, isCloseEv]
  · split
    · simp [List.filter_append, isCloseEv]
    · simp [List.filter_append, isCloseEv]

theorem connectLoopV1_no_close (env : ConnEnv) (e : V1.ClickHouseEntry)
    (st : V2.ConnState) (ds : List V1.DatabaseInner) :
    ((V1.connectLoop env e st ds).1).trace.filter isCloseEv = st.trace.filter isCloseEv := by
  induction ds generalizing st with
  | nil => rfl
  | cons d rest ih =>
      simp only [V1.connectLoop]
      cases hstep : V1.connectStep env e st d with
      | mk st' r =>
          cases r with
          | none =>
              have := connectStepV1_no_close env e st d
              rw [hstep] at this
              simpa [this] using ih st'
          | some err =>
              have := connectStepV1_no_close env e st d
              rw [hstep] at this
              simpa using this

/-- Earlier-variant descriptor with auto-create enabled. -/
def dAC1 : V1.DatabaseInner :=
  { name := "x", dryRun := false, autoCreate := true, params := [] }

/-- Earlier-variant entry holding the auto-create descriptor. -/
def entC2 : V1.ClickHouseEntry :=
  { V1.defaultEntryV1 with User := "u", pass := "p", Addr := "a", innerDbList := [dAC1] }

/-- Environment where every open and every exec succeeds. -/
def envAllOk : ConnEnv :=
  { openDb := fun _ _ => .ok dbOkw
    execDb := fun _ _ => none }

/-- C2 (counterexample): in the earlier variant, on a fully successful run
of a descriptor with `dryRun=false` and `autoCreate=true`, the trace shows
the auxiliary open (no database selected) and the create statement, then
immediately the real open: no close event occurs anywhere, so the auxiliary
connection is not closed before the real connection is opened, contrary to
the claim. -/
theorem connectV1_autocreate_never_closes_cex :
    (V1.connect envAllOk entC2).1.trace =
      [Ev.openConn "tcp://a?u&p", Ev.execSql "CREATE DATABASE IF NOT EXISTS x",
       Ev.openConn "tcp://a?x&u&p"] ∧
    (V1.connect envAllOk entC2).1.trace.filter isCloseEv = [] ∧
    (V1.connect envAllOk entC2).2 = none := by decide

/-- C2 (amended): in the later variant, for a descriptor with
`dryRun=false` and `autoCreate=true`, `connect` opens the auxiliary
connection without selecting a database, issues the create statement,
closes the auxiliary handle, and only then opens the real connection (the
close event precedes the real open in the trace); a failure of the
auxiliary open aborts the step (and hence the whole Bootstrap) with that
error.  In the earlier variant the same steps run but the auxiliary
connection is never closed: no close event ever occurs in its traces. -/
theorem autocreate_close_policy_amended :
    (∀ (env : ConnEnv) (e : V2.ClickHouseEntry) (st : V2.ConnState)
        (d : V2.DatabaseInner) (db db2 : GormDB) (s : SqlConn),
      d.dryRun = false → d.autoCreate = true →
      env.openDb (V2.auxDsn e) (GoMap.find e.GormConfigMap d.name) = .ok db →
      db.dbRes = .ok s →
      env.execDb db (V2.createSql d) = none →
      env.openDb (V2.realDsn e d) (GoMap.find e.GormConfigMap d.name) = .ok db2 →
      V2.connectStep env e st d =
        ({ GormDbMap := GoMap.insert st.GormDbMap d.name db2,
           trace := st.trace ++
             [Ev.openConn (V2.auxDsn e), Ev.execSql (V2.createSql d),
              Ev.closeConn s.connId, Ev.openConn (V2.realDsn e d)] }, none)) ∧
    (∀ (env : ConnEnv) (e : V2.ClickHouseEntry) (st : V2.ConnState)
        (d : V2.DatabaseInner) (err : String),
      d.dryRun = false → d.autoCreate = true →
      env.openDb (V2.auxDsn e) (GoMap.find e.GormConfigMap d.name) = .error err →
      V2.connectStep env e st d =
        ({ st with trace := st.trace ++ [Ev.openConn (V2.auxDsn e)] }, some err)) ∧
    (∀ (env : ConnEnv) (e : V1.ClickHouseEntry),
      (V1.connect env e).1.trace.filter isCloseEv = []) := by
  refine ⟨?_, ?_, ?_⟩
  · intro env e st d db db2 s hdr hac hopen hdb hexec hopen2
    simp only [V2.connectStep, hdr, hac, Bool.not_false, Bool.true_and, if_true,
      hopen, hexec, closeEvents, hdb, hopen2]
    simp [List.append_assoc]
  · intro env e st d err hdr hac hopen
    simp only [V2.connectStep, hdr, hac, Bool.not_false, Bool.true_and, if_true, hopen]
  · intro env e
    exact connectLoopV1_no_close env e _ _

/-- Later-variant descriptor with auto-create enabled. -/
def dAC2 : V2.DatabaseInner :=
  { name := "x", dryRun := false, autoCreate := true, params := [], plugins := [] }

/-- Later-variant entry holding the auto-create descriptor. -/
def entC2v : V2.ClickHouseEntry :=
  { V2.defaultEntryV2 with User := "u", pass := "p", Addr := "a", innerDbList := [dAC2] }

/-- The empty connect state. -/
def stEmpty : V2.ConnState := { GormDbMap := [], trace := [] }

/-- Concrete instantiation of the amended C2 theorem: on a successful run
the later variant emits open-aux, create, close, open-real in this order. -/
theorem autocreate_close_policy_witness :
    V2.connectStep envAllOk entC2v stEmpty dAC2 =
      ({ GormDbMap := [("x", dbOkw)],
         trace := [Ev.openConn "tcp://a?u&p", Ev.execSql "CREATE DATABASE IF NOT EXISTS x",
                   Ev.closeConn 7, Ev.openConn "tcp://a?x&u&p"] }, none) := by
  rw [autocreate_close_policy_amended.1 envAllOk entC2v stEmpty dAC2 dbOkw dbOkw
    { connId := 7, pingOk := true } rfl rfl rfl rfl rfl rfl]
  decide

/-- Later-variant descriptor with `dryRun=true` (and auto-create set, which
dry-run disables). -/
def dDR : V2.DatabaseInner :=
  { name := "x", dryRun := true, autoCreate := true, params := [], plugins := [] }

/-- Later-variant entry holding the dry-run descriptor. -/
def entC3 : V2.ClickHouseEntry :=
  { V2.defaultEntryV2 with User := "u", pass := "p", Addr := "a", innerDbList := [dDR] }

/-- Earlier-variant descriptor with `dryRun=true` (and auto-create set,
which dry-run disables). -/
def dDR1 : V1.DatabaseInner :=
  { name := "x", dryRun := true, autoCreate := true, params := [] }

/-- Earlier-variant entry holding the dry-run descriptor. -/
def entC3v1 : V1.ClickHouseEntry :=
  { V1.defaultEntryV1 with User := "u", pass := "p", Addr := "a", innerDbList := [dDR1] }

/-- C3 (counterexample): with `dryRun=true` both variants still open the
real network connection for the descriptor and store its handle in the
handle map, contrary to the claim that no connection is opened and no
handle stored. -/
theorem dryrun_still_connects_cex :
    (V2.connect envAllOk entC3).1.trace = [Ev.openConn "tcp://a?x&u&p"] ∧
    GoMap.find (V2.connect envAllOk entC3).1.GormDbMap "x" = some dbOkw ∧
    (V2.Bootstrap envAllOk entC3).2.2 = .ok ∧
    (V1.connect envAllOk entC3v1).1.trace = [Ev.openConn "tcp://a?x&u&p"] ∧
    GoMap.find (V1.connect envAllOk entC3v1).1.GormDbMap "x" = some dbOkw := by decide

/-- C3 (amended): in both variants, a descriptor with `dryRun=true` skips
only the auto-create step: no auxiliary connection is opened and no create
statement is issued, but the real connection is still opened (one open
event for the real DSN) and, on success, its handle is stored under the
descriptor name. -/
theorem dryrun_skips_only_autocreate :
    (∀ (env : ConnEnv) (e : V2.ClickHouseEntry) (st : V2.ConnState)
        (d : V2.DatabaseInner), d.dryRun = true →
      V2.connectStep env e st d =
        (match env.openDb (V2.realDsn e d) (GoMap.find e.GormConfigMap d.name) with
         | .error err =>
             ({ st with trace := st.trace ++ [Ev.openConn (V2.realDsn e d)] }, some err)
         | .ok db =>
             ({ GormDbMap := GoMap.insert st.GormDbMap d.name db,
                trace := st.trace ++ [Ev.openConn (V2.realDsn e d)] }, none))) ∧
    (∀ (env : ConnEnv) (e : V1.ClickHouseEntry) (st : V2.ConnState)
        (d : V1.DatabaseInner), d.dryRun = true →
      V1.connectStep env e st d =
        (match env.openDb (V1.realDsn e d) (GoMap.find e.GormConfigMap d.name) with
         | .error err =>
             ({ st with trace := st.trace ++ [Ev.openConn (V1.realDsn e d)] }, some err)
         | .ok db =>
             ({ GormDbMap := GoMap.insert st.GormDbMap d.name db,
                trace := st.trace ++ [Ev.openConn (V1.realDsn e d)] }, none))) := by
  constructor
  · intro env e st d h
    simp only [V2.connectStep, h, Bool.not_true, Bool.false_and, Bool.false_eq_true, if_false]
  · intro env e st d h
    simp only [V1.connectStep, h, Bool.not_true, Bool.false_and, Bool.false_eq_true, if_false]

/-- Concrete instantiation of the amended C3 theorem: in both variants the
dry-run descriptor still connects and stores its handle. -/
theorem dryrun_skips_only_autocreate_witness :
    V2.connectStep envAllOk entC3 stEmpty dDR =
      ({ GormDbMap := [("x", dbOkw)], trace := [Ev.openConn "tcp://a?x&u&p"] }, none) ∧
    V1.connectStep envAllOk entC3v1 stEmpty dDR1 =
      ({ GormDbMap := [("x", dbOkw)], trace := [Ev.openConn "tcp://a?x&u&p"] }, none) := by
  constructor
  · rw [dryrun_skips_only_autocreate.1 envAllOk entC3 stEmpty dDR rfl]
    decide
  · rw [dryrun_skips_only_autocreate.2 envAllOk entC3v1 stEmpty dDR1 rfl]
    decide

/-- C4 (counterexample): the name mutator is not a no-op on the empty
string: applied to the default entry it overwrites the default name
`ClickHouse` with the empty string, changing the entry; the same holds in
the earlier variant. -/
theorem withname_empty_overwrites_cex :
    V2.WithName "" V2.defaultEntryV2 ≠ V2.defaultEntryV2 ∧
    (V2.WithName "" V2.defaultEntryV2).entryName = "" ∧
    V2.defaultEntryV2.entryName = "ClickHouse" ∧
    V1.WithName "" V1.defaultEntryV1 ≠ V1.defaultEntryV1 := by decide

/-- C4 (amended): in both variants, for every entry, the user, password,
address, logger, per-database and plugin mutators are no-ops on empty or
invalid values, but the name and description mutators assign
unconditionally, so an empty name or description does overwrite the
existing value. -/
theorem mutator_noop_policy_amended (e : V2.ClickHouseEntry)
    (e1 : V1.ClickHouseEntry) (dr ac : Bool) (ps : List String) :
    V2.WithUser "" e = e ∧ V2.WithPass "" e = e ∧ V2.WithAddr "" e = e ∧
    V2.WithLogger none e = e ∧ V2.WithDatabase "" dr ac ps e = e ∧
    V2.WithPlugin "x" none e = e ∧
    V2.WithName "" e = { e with entryName := "" } ∧
    V2.WithDescription "" e = { e with entryDescription := "" } ∧
    V1.WithUser "" e1 = e1 ∧
    V1.WithPass "" e1 = e1 ∧
    V1.WithAddr "" e1 = e1 ∧
    V1.WithZapLoggerEntry none e1 = e1 ∧
    V1.WithDatabase "" dr ac ps e1 = e1 ∧
    V1.WithName "" e1 = { e1 with EntryName := "" } ∧
    V1.WithDescription "" e1 = { e1 with EntryDescription := "" } :=
  ⟨rfl, rfl, rfl, rfl, rfl, rfl, rfl, rfl, rfl, rfl, rfl, rfl, rfl, rfl, rfl⟩

theorem connWorld_eq (w1 w2 : V2.ConnWorld) (h : ∀ n, w1.isOpen n = w2.isOpen n) :
    w1 = w2 := by
  cases w1
  cases w2
  simp only [V2.ConnWorld.mk.injEq]
  exact funext h

/-- Whether closing the given handle closes native connection `n`. -/
def closesId (db : GormDB) (n : Nat) : Bool :=
  match db.dbRes with
  | .ok s => n == s.connId
  | .error _ => false

theorem foldl_closeDB_isOpen (l : List GormDB) (w : V2.ConnWorld) (n : Nat) :
    (l.foldl V2.closeDB w).isOpen n =
      if l.any (fun db => closesId db n) then false else w.isOpen n := by
  induction l generalizing w with
  | nil => simp
  | cons db rest ih =>
      simp only [List.foldl_cons, List.any_cons, ih]
      cases hdb : db.dbRes with
      | error msg => simp [V2.closeDB, closesId, hdb]
      | ok s =>
          by_cases hn : n = s.connId
          · simp [V2.closeDB, closesId, hdb, hn]
          · simp [V2.closeDB, closesId, hdb, hn]

theorem interrupt_isOpen (e : V2.ClickHouseEntry) (w : V2.ConnWorld) (n : Nat) :
    (V2.Interrupt e w).isOpen n =
      if (GoMap.values e.GormDbMap).any (fun db => closesId db n) then false
      else w.isOpen n :=
  foldl_closeDB_isOpen _ w n

/-- C6 (amended): in the later variant, `Interrupt` closes every realized
handle in the entry handle map (every native connection reachable from a
stored handle ends closed), close errors being ignored by construction, and
a second invocation of `Interrupt` is a no-op (idempotent, no panic and no
error since it is a total function); in the earlier variant, `Interrupt`
only logs: it closes nothing and leaves the world untouched (hence it is
also trivially idempotent and error-free). -/
theorem interrupt_close_policy_amended :
    (∀ (e : V2.ClickHouseEntry) (w : V2.ConnWorld) (db : GormDB) (s : SqlConn),
      db ∈ GoMap.values e.GormDbMap → db.dbRes = .ok s →
      (V2.Interrupt e w).isOpen s.connId = false) ∧
    (∀ (e : V2.ClickHouseEntry) (w : V2.ConnWorld),
      V2.Interrupt e (V2.Interrupt e w) = V2.Interrupt e w) ∧
    (∀ (e : V1.ClickHouseEntry) (w : V2.ConnWorld), V1.Interrupt e w = w) := by
  refine ⟨?_, ?_, fun e w => rfl⟩
  · intro e w db s hmem hdb
    rw [interrupt_isOpen]
    have hany : (GoMap.values e.GormDbMap).any (fun db => closesId db s.connId) = true := by
      refine List.any_eq_true.mpr ⟨db, hmem, ?_⟩
      simp [closesId, hdb]
    simp [hany]
  · intro e w
    apply connWorld_eq
    intro n
    rw [interrupt_isOpen, interrupt_isOpen]
    by_cases hany : (GoMap.values e.GormDbMap).any (fun db => closesId db n) = true
    · simp [hany]
    · simp [hany]

/-- Earlier-variant entry with one realized handle (native id 7). -/
def entC6 : V1.ClickHouseEntry :=
  { V1.defaultEntryV1 with GormDbMap := [("x", dbOkw)] }

/-- World in which every native connection is open. -/
def wAllOpen : V2.ConnWorld := { isOpen := fun _ => true }

/-- C6 (counterexample): the earlier-variant `Interrupt` does not close the
realized handle of the entry: native connection 7 is reachable from the
handle map, yet it is still open after `Interrupt`. -/
theorem interruptV1_closes_nothing_cex :
    dbOkw ∈ GoMap.values entC6.GormDbMap ∧
    dbOkw.dbRes = .ok { connId := 7, pingOk := true } ∧
    (V1.Interrupt entC6 wAllOpen).isOpen 7 = true :=
  ⟨by decide, rfl, rfl⟩

/-- Later-variant entry with one realized handle (native id 7). -/
def entC6v : V2.ClickHouseEntry :=
  { V2.defaultEntryV2 with GormDbMap := [("x", dbOkw)] }

/-- Concrete instantiation of the amended C6 theorem: the later-variant
`Interrupt` closes the realized native connection and is idempotent. -/
theorem interrupt_close_policy_witness :
    (V2.Interrupt entC6v wAllOpen).isOpen 7 = false ∧
    V2.Interrupt entC6v (V2.Interrupt entC6v wAllOpen) = V2.Interrupt entC6v wAllOpen :=
  ⟨interrupt_close_policy_amended.1 entC6v wAllOpen dbOkw
      { connId := 7, pingOk := true } (by decide) rfl,
   interrupt_close_policy_amended.2.1 entC6v wAllOpen⟩

theorem handleHealthy_iff (db : GormDB) :
    V2.handleHealthy db = true ↔ ∃ s, db.dbRes = .ok s ∧ s.pingOk = true := by
  cases hdb : db.dbRes with
  | error msg => simp [V2.handleHealthy, hdb]
  | ok s => simp [V2.handleHealthy, hdb]

/-- C8: in both variants, `IsHealthy` returns true iff every handle in the
entry handle map can retrieve its native connection (`db.DB()` succeeds)
and that connection answers the liveness probe (`Ping()`); equivalently,
one failing handle makes the whole entry unhealthy. -/
theorem ishealthy_iff_all_handles_healthy (e : V2.ClickHouseEntry)
    (e1 : V1.ClickHouseEntry) :
    (V2.IsHealthy e = true ↔
      ∀ db ∈ GoMap.values e.GormDbMap, ∃ s, db.dbRes = .ok s ∧ s.pingOk = true) ∧
    (V1.IsHealthy e1 = true ↔
      ∀ db ∈ GoMap.values e1.GormDbMap, ∃ s, db.dbRes = .ok s ∧ s.pingOk = true) := by
  constructor
  · unfold V2.IsHealthy
    rw [List.all_eq_true]
    constructor
    · intro h db hmem
      exact (handleHealthy_iff db).mp (h db hmem)
    · intro h db hmem
      exact (handleHealthy_iff db).mpr (h db hmem)
  · unfold V1.IsHealthy
    rw [List.all_eq_true]
    constructor
    · intro h db hmem
      exact (handleHealthy_iff db).mp (h db hmem)
    · intro h db hmem
      exact (handleHealthy_iff db).mpr (h db hmem)

/-- Concrete instantiation of the C8 theorem: in both variants, the entry
with one healthy handle is healthy, and conversely its handles all pass
both probes. -/
theorem ishealthy_witness :
    (∀ db ∈ GoMap.values entC6v.GormDbMap, ∃ s, db.dbRes = .ok s ∧ s.pingOk = true) ∧
    (∀ db ∈ GoMap.values entC6.GormDbMap, ∃ s, db.dbRes = .ok s ∧ s.pingOk = true) :=
  ⟨((ishealthy_iff_all_handles_healthy entC6v entC6).1).mp (by decide),
   ((ishealthy_iff_all_handles_healthy entC6v entC6).2).mp (by decide)⟩

/-- C9: the diagnostic `String()` output never depends on the password: two
entries that differ only in the password field serialize identically, in
both variants; in the later variant every field is excluded from
serialization, so the output is the constant empty JSON object. -/
theorem entry_string_password_independent (e2 : V2.ClickHouseEntry)
    (e1 : V1.ClickHouseEntry) (p q : String) :
    V2.entryString { e2 with pass := p } = V2.entryString { e2 with pass := q } ∧
    V1.entryString { e1 with pass := p } = V1.entryString { e1 with pass := q } ∧
    V2.entryString e2 = "\x7b\x7d" :=
  ⟨rfl, rfl, rfl⟩

theorem length_lt_one_iff (s : String) : s.length < 1 ↔ s = "" := by
  cases s with
  | mk data =>
      cases data with
      | nil => exact iff_of_true (by decide) rfl
      | cons c cs =>
          refine iff_of_false ?_ ?_
          · simp [String.length]
          · intro h
            exact List.cons_ne_nil c cs (congrArg String.data h)

theorem configMapStep_skip (iv : String → Bool) (acc : GoMap V2.BootConfigE)
    (e : V2.BootConfigE) (h : e.Enabled = false ∨ e.Name = "") :
    V2.configMapStep iv acc e = acc := by
  unfold V2.configMapStep
  rcases h with h | h
  · simp [h]
  · simp [h]

theorem configMapStep_mem (iv : String → Bool) (acc : GoMap V2.BootConfigE)
    (b : V2.BootConfigE) (n : String) (h : n ∈ GoMap.keys acc) :
    n ∈ GoMap.keys (V2.configMapStep iv acc b) := by
  unfold V2.configMapStep
  split
  · exact h
  · split
    · exact h
    · split
      · exact (GoMap.keys_insert acc b.Name b n).mpr (Or.inr h)
      · split
        · exact h
        · exact (GoMap.keys_insert acc b.Name b n).mpr (Or.inr h)

theorem configMapStep_self_mem (iv : String → Bool) (acc : GoMap V2.BootConfigE)
    (b : V2.BootConfigE) (hb : b.Enabled = true) (hn : b.Name ≠ "")
    (hv : iv b.Domain = true) :
    b.Name ∈ GoMap.keys (V2.configMapStep iv acc b) := by
  have hlen : ¬ (b.Name.length < 1) := fun hc => hn ((length_lt_one_iff b.Name).mp hc)
  unfold V2.configMapStep
  simp only [hb, hv, hlen, Bool.not_true, Bool.false_or, decide_False, Bool.false_eq_true,
    if_false, decide_eq_true_eq]
  split
  · exact (GoMap.keys_insert acc b.Name b b.Name).mpr (Or.inl rfl)
  · split
    · next hf _ =>
        exact (GoMap.find_mem_keys acc b.Name).mp (by simp [hf])
    · exact (GoMap.keys_insert acc b.Name b b.Name).mpr (Or.inl rfl)

theorem configMapStep_nodup (iv : String → Bool) (acc : GoMap V2.BootConfigE)
    (b : V2.BootConfigE) (h : (GoMap.keys acc).Nodup) :
    (GoMap.keys (V2.configMapStep iv acc b)).Nodup := by
  unfold V2.configMapStep
  split
  · exact h
  · split
    · exact h
    · split
      · exact GoMap.keys_insert_nodup acc b.Name b h
      · split
        · exact h
        · exact GoMap.keys_insert_nodup acc b.Name b h

theorem buildCfg_foldl_mem (iv : String → Bool) (blocks : List V2.BootConfigE)
    (acc : GoMap V2.BootConfigE) (n : String) (h : n ∈ GoMap.keys acc) :
    n ∈ GoMap.keys (blocks.foldl (V2.configMapStep iv) acc) := by
  induction blocks generalizing acc with
  | nil => exact h
  | cons b rest ih => exact ih _ (configMapStep_mem iv acc b n h)

theorem buildCfg_foldl_nodup (iv : String → Bool) (blocks : List V2.BootConfigE)
    (acc : GoMap V2.BootConfigE) (h : (GoMap.keys acc).Nodup) :
    (GoMap.keys (blocks.foldl (V2.configMapStep iv) acc)).Nodup := by
  induction blocks generalizing acc with
  | nil => exact h
  | cons b rest ih => exact ih _ (configMapStep_nodup iv acc b h)

theorem buildCfg_foldl_self_mem (iv : String → Bool) :
    ∀ (blocks : List V2.BootConfigE) (acc : GoMap V2.BootConfigE)
      (b : V2.BootConfigE), b ∈ blocks → b.Enabled = true → b.Name ≠ "" →
      iv b.Domain = true →
      b.Name ∈ GoMap.keys (blocks.foldl (V2.configMapStep iv) acc)
  | [], _, _, hmem, _, _, _ => absurd hmem (List.not_mem_nil _)
  | hd :: rest, acc, b, hmem, hb, hn, hv => by
      rcases List.mem_cons.mp hmem with h | h
      · subst h
        exact buildCfg_foldl_mem iv rest _ _ (configMapStep_self_mem iv acc b hb hn hv)
      · exact buildCfg_foldl_self_mem iv rest _ b h hb hn hv

/-- C5: in the YAML registration of the later variant, when several
enabled, named blocks match the current environment, the filtering loop
keeps exactly one block per name (the key set of the selected map has no
duplicates and every qualifying name is present), and a block with a
specific domain (neither empty nor `*`) replaces the block previously
selected under the same name. -/
theorem yaml_domain_selection_specific_wins
    (iv : String → Bool) (blocks : List V2.BootConfigE) (e prev : V2.BootConfigE)
    (hen : e.Enabled = true) (hn : e.Name ≠ "") (hv : iv e.Domain = true)
    (hd1 : e.Domain ≠ "") (hd2 : e.Domain ≠ "*")
    (hprev : GoMap.find (V2.buildConfigMap iv blocks) e.Name = some prev) :
    GoMap.find (V2.buildConfigMap iv (blocks ++ [e])) e.Name = some e ∧
    (GoMap.keys (V2.buildConfigMap iv (blocks ++ [e]))).Nodup ∧
    (∀ b ∈ blocks ++ [e], b.Enabled = true → b.Name ≠ "" → iv b.Domain = true →
      b.Name ∈ GoMap.keys (V2.buildConfigMap iv (blocks ++ [e]))) := by
  have happ : V2.buildConfigMap iv (blocks ++ [e]) =
      V2.configMapStep iv (V2.buildConfigMap iv blocks) e := by
    unfold V2.buildConfigMap
    rw [List.foldl_append]
    rfl
  have hlen : ¬ (e.Name.length < 1) := fun hc => hn ((length_lt_one_iff e.Name).mp hc)
  have hstep : V2.configMapStep iv (V2.buildConfigMap iv blocks) e =
      GoMap.insert (V2.buildConfigMap iv blocks) e.Name e := by
    unfold V2.configMapStep
    rw [hprev]
    simp [hen, hv, hlen, hd1, hd2]
  refine ⟨?_, ?_, ?_⟩
  · rw [happ, hstep]
    exact GoMap.find_insert_self _ _ _
  · rw [happ]
    exact configMapStep_nodup iv _ e
      (buildCfg_foldl_nodup iv blocks GoMap.empty List.nodup_nil)
  · intro b hmem hb hbn hbv
    exact buildCfg_foldl_self_mem iv (blocks ++ [e]) GoMap.empty b hmem hb hbn hbv

/-- Logger block used by concrete witnesses. -/
def lb0 : V2.LoggerBlock :=
  { entryRef := "", level := "", encoding := "", outputPaths := [],
    slowThresholdMs := 0, ignoreRecordNotFoundError := false }

/-- Wildcard-domain block named `n`. -/
def bWild : V2.BootConfigE :=
  { Enabled := true, Name := "n", Description := "", Domain := "*", User := "",
    Pass := "", Addr := "", Database := [], Logger := lb0 }

/-- Specific-domain block with the same name. -/
def bSpec : V2.BootConfigE := { bWild with Domain := "prod" }

/-- Concrete instantiation of the C5 theorem: the specific-domain block
replaces the wildcard block previously selected under the same name. -/
theorem yaml_domain_selection_witness :
    GoMap.find (V2.buildConfigMap (fun _ => true) ([bWild] ++ [bSpec])) "n" = some bSpec :=
  (yaml_domain_selection_specific_wins (fun _ => true) [bWild] bSpec bWild rfl
    (by decide) rfl (by decide) (by decide) (by decide)).1

theorem foldl_withDatabase (decls : List (String × Bool × Bool × List String))
    (ent : V2.ClickHouseEntry) (hne : ∀ x ∈ decls, x.1 ≠ "") :
    (decls.map (fun x => V2.WithDatabase x.1 x.2.1 x.2.2.1 x.2.2.2)).foldl
        (fun e o => o e) ent =
      { ent with innerDbList := ent.innerDbList ++ decls.map (fun x =>
          { name := x.1, dryRun := x.2.1, autoCreate := x.2.2.1,
            params := x.2.2.2, plugins := [] }) } := by
  induction decls generalizing ent with
  | nil => simp
  | cons x rest ih =>
      have hx : ¬ (x.1.length < 1) :=
        fun hc => hne x (List.mem_cons_self x rest) ((length_lt_one_iff x.1).mp hc)
      simp only [List.map_cons, List.foldl_cons]
      rw [show V2.WithDatabase x.1 x.2.1 x.2.2.1 x.2.2.2 ent =
          { ent with innerDbList := ent.innerDbList ++
            [{ name := x.1, dryRun := x.2.1, autoCreate := x.2.2.1,
               params := x.2.2.2, plugins := [] }] } from by
        unfold V2.WithDatabase
        rw [if_neg hx]]
      rw [ih _ (fun y hy => hne y (List.mem_cons_of_mem x hy))]
      simp [List.append_assoc]

theorem cfg_fold_keys (l : List V2.DatabaseInner) (acc : GoMap GormConfig)
    (n : String) :
    n ∈ GoMap.keys (l.foldl (fun m innerDb =>
        GoMap.insert m innerDb.name { dryRun := innerDb.dryRun }) acc) ↔
      n ∈ GoMap.keys acc ∨ n ∈ l.map (fun i => i.name) := by
  induction l generalizing acc with
  | nil => simp
  | cons i rest ih =>
      simp only [List.foldl_cons, List.map_cons, List.mem_cons]
      rw [ih]
      rw [GoMap.keys_insert]
      tauto

theorem cfg_fold_nodup (l : List V2.DatabaseInner) (acc : GoMap GormConfig)
    (h : (GoMap.keys acc).Nodup) :
    (GoMap.keys (l.foldl (fun m innerDb =>
        GoMap.insert m innerDb.name { dryRun := innerDb.dryRun }) acc)).Nodup := by
  induction l generalizing acc with
  | nil => exact h
  | cons i rest ih => exact ih _ (GoMap.keys_insert_nodup _ _ _ h)

/-- The descriptor built by `WithDatabase` from one declaration tuple
(name, dryRun, autoCreate, params). -/
def declDb (x : String × Bool × Bool × List String) : V2.DatabaseInner :=
  { name := x.1, dryRun := x.2.1, autoCreate := x.2.2.1,
    params := x.2.2.2, plugins := [] }

theorem foldl_withDatabase2 (decls : List (String × Bool × Bool × List String))
    (ent : V2.ClickHouseEntry) (hne : ∀ x ∈ decls, x.1 ≠ "") :
    (decls.map (fun x => V2.WithDatabase x.1 x.2.1 x.2.2.1 x.2.2.2)).foldl
        (fun e o => o e) ent =
      { ent with innerDbList := ent.innerDbList ++ decls.map declDb } := by
  rw [foldl_withDatabase decls ent hne]
  rfl

/-- C7: registering with a sequence of per-database declarations (nonempty
names) yields one descriptor per declaration, in declaration order —
declaring the same name twice keeps two separate descriptors, not one
merged one — while the ORM configuration map ends up with exactly one entry
per distinct declared name. -/
theorem register_descriptor_accumulation
    (decls : List (String × Bool × Bool × List String))
    (hne : ∀ x ∈ decls, x.1 ≠ "") :
    (V2.RegisterClickHouseEntry (decls.map (fun x =>
        V2.WithDatabase x.1 x.2.1 x.2.2.1 x.2.2.2))).innerDbList =
      decls.map declDb ∧
    (∀ n, n ∈ GoMap.keys (V2.RegisterClickHouseEntry (decls.map (fun x =>
        V2.WithDatabase x.1 x.2.1 x.2.2.1 x.2.2.2))).GormConfigMap ↔
      n ∈ decls.map (fun x => x.1)) ∧
    (GoMap.keys (V2.RegisterClickHouseEntry (decls.map (fun x =>
        V2.WithDatabase x.1 x.2.1 x.2.2.1 x.2.2.2))).GormConfigMap).Nodup := by
  have hreg : V2.RegisterClickHouseEntry (decls.map (fun x =>
      V2.WithDatabase x.1 x.2.1 x.2.2.1 x.2.2.2)) =
      { V2.defaultEntryV2 with
          innerDbList := decls.map declDb,
          GormConfigMap := (decls.map declDb).foldl
            (fun m innerDb => GoMap.insert m innerDb.name { dryRun := innerDb.dryRun })
            GoMap.empty } := by
    simp only [V2.RegisterClickHouseEntry]
    rw [foldl_withDatabase2 decls V2.defaultEntryV2 hne]
    split
    · next hcond =>
        have hcond2 : ("ClickHouse entry for gorm.DB").length < 1 := hcond
        exact absurd hcond2 (by decide)
    · rfl
  refine ⟨?_, ?_, ?_⟩
  · rw [hreg]
  · intro n
    rw [hreg]
    show n ∈ GoMap.keys ((decls.map declDb).foldl _ GoMap.empty) ↔ _
    rw [cfg_fold_keys]
    simp [GoMap.keys, GoMap.empty, List.map_map, Function.comp, declDb]
  · rw [hreg]
    exact cfg_fold_nodup _ GoMap.empty List.nodup_nil

/-- Two declarations with the same database name, used as witness. -/
def pDecls : List (String × Bool × Bool × List String) :=
  [("a", false, false, []), ("a", true, true, [])]

/-- Concrete instantiation of the C7 theorem: duplicate names give two
descriptors and a single configuration key. -/
theorem register_descriptor_accumulation_witness :
    (V2.RegisterClickHouseEntry (pDecls.map (fun x =>
        V2.WithDatabase x.1 x.2.1 x.2.2.1 x.2.2.2))).innerDbList =
      [declDb ("a", false, false, []), declDb ("a", true, true, [])] ∧
    "a" ∈ GoMap.keys (V2.RegisterClickHouseEntry (pDecls.map (fun x =>
        V2.WithDatabase x.1 x.2.1 x.2.2.1 x.2.2.2))).GormConfigMap :=
  ⟨(register_descriptor_accumulation pDecls (by decide)).1,
   ((register_descriptor_accumulation pDecls (by decide)).2.1 "a").mpr (by decide)⟩

/-- C10: a block whose enabled flag is false or whose name is empty is
skipped by the YAML registration of the later variant before any option is
built: removing it from the block list changes neither the returned entry
map nor the sequence of entries added to the global registry. -/
theorem yaml_disabled_or_unnamed_block_inert
    (iv : String → Bool) (pre post : List V2.BootConfigE) (e : V2.BootConfigE)
    (h : e.Enabled = false ∨ e.Name = "") :
    V2.RegisterClickHouseEntryYAML iv (pre ++ e :: post) =
      V2.RegisterClickHouseEntryYAML iv (pre ++ post) := by
  have hmap : V2.buildConfigMap iv (pre ++ e :: post) =
      V2.buildConfigMap iv (pre ++ post) := by
    unfold V2.buildConfigMap
    rw [List.foldl_append, List.foldl_append, List.foldl_cons,
      configMapStep_skip iv _ e h]
  unfold V2.RegisterClickHouseEntryYAML
  rw [hmap]

/-- Disabled block used as witness. -/
def bOff : V2.BootConfigE := { bWild with Enabled := false }

/-- Concrete instantiation of the C10 theorem: a disabled block produces no
entry and no registry change. -/
theorem yaml_disabled_block_witness :
    V2.RegisterClickHouseEntryYAML (fun _ => true) ([] ++ bOff :: []) =
      V2.RegisterClickHouseEntryYAML (fun _ => true) ([] ++ []) :=
  yaml_disabled_or_unnamed_block_inert (fun _ => true) [] [] bOff (Or.inl rfl)
